import Mathlib

/-!
Verification of the tellit on-chain program
(src/anchor_project/tellit/programs/tellit/src/lib.rs) against its
natural-language specification.

The program is shallowly embedded: identity keys (Solana `Pubkey`) become
`Nat`, the `u64` counters become `Nat` together with explicit saturating
operations clamped at `2^64 - 1`, the `i64` clock value becomes an `Int`
parameter, and each instruction handler becomes a pure function.  Account
resolution (the `#[derive(Accounts)]` structs) is embedded as an explicit
wrapper around each handler: a PDA is the tuple of its seeds, the `init`
constraint fails when the address is occupied, and a `seeds`/`bump`
constraint re-derives the expected address from the account's current data
and rejects on mismatch, exactly as the attribute macros declare.
-/

namespace Tellit

/-- Identity keys (Solana `Pubkey`).  `Pubkey::default()` is the zero key. -/
abbrev Pubkey := Nat

/-- Model of `Pubkey::default()` (the all-zeros key, lib.rs line 46). -/
def pubkeyDefault : Pubkey := 0

/-- Largest value of a `u64`. -/
def u64Max : Nat := 2 ^ 64 - 1

/-- Rust `u64::saturating_add`, on `Nat` clamped at `u64Max`. -/
def u64SatAdd (a b : Nat) : Nat := min (a + b) u64Max

/-- Rust `u64::saturating_sub` on values below `2^64`: truncated `Nat`
subtraction, which clamps at `0`. -/
def u64SatSub (a b : Nat) : Nat := a - b

/-- The `ReactionType` enum (lib.rs lines 294-299). -/
inductive ReactionType where
  | none
  | like
  | dislike
deriving DecidableEq

/-- The `Config` account (lib.rs lines 266-271). -/
structure Config where
  authority : Pubkey
  bump : Nat
  note_count : Nat
deriving DecidableEq

/-- The `Note` account (lib.rs lines 273-284). -/
structure Note where
  author : Pubkey
  receiver : Pubkey
  title : String
  content : String
  likes : Nat
  dislikes : Nat
  created_at : Int
  updated_at : Int
  bump : Nat
deriving DecidableEq

/-- The error enum `TellitError` (lib.rs lines 301-319). -/
inductive TellitError where
  | CannotSendToSelf
  | TitleTooLong
  | ContentTooLong
  | NoteAlreadyExists
  | NotAuthorized
  | InvalidNotePDA
  | InvalidReactionType
  | InvalidReactionCount
deriving DecidableEq

/-- Every way an instruction of the program can fail: a `TellitError`
raised by a handler or an account constraint, or a host-level failure.
`allocOccupied` is the allocator's failure when an `init` account's address
is already in use; `seedsMismatch` is the `seeds`/`bump` constraint
rejecting an account whose re-derived address differs from its actual one;
`accountMissing` is a required (non-`init`) account that does not exist. -/
inductive ProgError where
  | tellit (e : TellitError)
  | allocOccupied
  | seedsMismatch
  | accountMissing
deriving DecidableEq

/-- The byte stream `create_content_hash` (lib.rs lines 10-21) feeds to the
SHA-256 hasher: the bytes of `title`, then the single byte `":"`, then the
bytes of `content`.  Hashing the three chunks in sequence is the same as
hashing their concatenation.  Since UTF-8 encoding of strings is injective,
two such byte streams coincide exactly when these strings coincide, so the
stream is represented by the concatenated string itself. -/
def preHashInput (title content : String) : String :=
  title ++ ":" ++ content

/-- A note PDA, as the tuple of its seeds
`[b"note", author, receiver, create_content_hash(title, content)]`
(lib.rs line 206).  The content hash is modelled by its pre-image
`preHashInput title content` (the spec's design relies on the hash being
collision-free, so the hash is embedded as an injective function). -/
structure NoteAddr where
  author : Pubkey
  receiver : Pubkey
  fingerprint : String
deriving DecidableEq

/-- Address derivation for a note account (SendNote accounts, lib.rs line 206). -/
def deriveNoteAddr (author receiver : Pubkey) (title content : String) : NoteAddr :=
  ⟨author, receiver, preHashInput title content⟩

/-- A reaction PDA, as the tuple of its seeds
`[b"reaction", note.key(), reactor.key()]` (lib.rs line 229). -/
abbrev ReactionAddr := NoteAddr × Pubkey

/-- The `Reaction` account (lib.rs lines 286-292); `note` stores `note.key()`. -/
structure Reaction where
  reactor : Pubkey
  note : NoteAddr
  reaction_type : ReactionType
  bump : Nat
deriving DecidableEq

/-- Lookup in an association list (the ledger's account store keyed by address). -/
def alistLookup {α β : Type} [DecidableEq α] : List (α × β) → α → Option β
  | [], _ => Option.none
  | (a, b) :: t, k => if a = k then Option.some b else alistLookup t k

/-- Overwrite the value at a key (first occurrence) in an association list. -/
def alistUpdate {α β : Type} [DecidableEq α] : List (α × β) → α → β → List (α × β)
  | [], _, _ => []
  | (a, b) :: t, k, v => if a = k then (a, v) :: t else (a, b) :: alistUpdate t k v

/-- Remove the entry at a key from an association list (account closure). -/
def alistEraseKey {α β : Type} [DecidableEq α] : List (α × β) → α → List (α × β)
  | [], _ => []
  | (a, b) :: t, k => if a = k then t else (a, b) :: alistEraseKey t k

/-- A freshly allocated, zero-initialized `Note` account, as Anchor's `init`
constraint produces it before the handler runs (all bytes zero: default
keys, empty strings, zero counters and timestamps). -/
def zeroNote : Note :=
  ⟨pubkeyDefault, pubkeyDefault, "", "", 0, 0, 0, 0, 0⟩

/-- A freshly allocated, zero-initialized `Reaction` account.  Its
discriminant byte is zero, which decodes as `ReactionType.none`. -/
def zeroReaction : Reaction :=
  ⟨pubkeyDefault, ⟨pubkeyDefault, pubkeyDefault, ""⟩, ReactionType.none, 0⟩

/-- The handler body of `send_note` (lib.rs lines 35-65), threading the two
mutable accounts.  On `require!` failure it returns the accounts exactly as
received together with the error, mirroring that every check in the source
precedes every field write.  `title.len()`/`content.len()` are Rust byte
lengths, hence `utf8ByteSize`. -/
def sendNoteHandler (now : Int) (author receiver : Pubkey) (title content : String)
    (noteBump : Nat) (note : Note) (config : Config) :
    (Note × Config) × Option TellitError :=
  if author = receiver then ((note, config), Option.some TellitError.CannotSendToSelf)
  else if 50 < title.utf8ByteSize then ((note, config), Option.some TellitError.TitleTooLong)
  else if 300 < content.utf8ByteSize then ((note, config), Option.some TellitError.ContentTooLong)
  else if ¬ note.author = pubkeyDefault then
    ((note, config), Option.some TellitError.NoteAlreadyExists)
  else
    let note' : Note :=
      { note with
        author := author, receiver := receiver, title := title, content := content,
        likes := 0, dislikes := 0, created_at := now, updated_at := now, bump := noteBump }
    let config' : Config := { config with note_count := u64SatAdd config.note_count 1 }
    ((note', config'), Option.none)

/-- The handler body of `edit_note` (lib.rs lines 67-84). -/
def editNoteHandler (now : Int) (author : Pubkey) (new_title new_content : String)
    (note : Note) : Note × Option TellitError :=
  if ¬ author = note.author then (note, Option.some TellitError.NotAuthorized)
  else if 50 < new_title.utf8ByteSize then (note, Option.some TellitError.TitleTooLong)
  else if 300 < new_content.utf8ByteSize then (note, Option.some TellitError.ContentTooLong)
  else ({ note with title := new_title, content := new_content, updated_at := now },
        Option.none)

/-- The handler body of `delete_note` (lib.rs lines 179-191): authorization
check, then a saturating decrement of the global counter. -/
def deleteNoteHandler (deleter : Pubkey) (note : Note) (config : Config) :
    Config × Option TellitError :=
  if ¬ (deleter = note.author ∨ deleter = note.receiver) then
    (config, Option.some TellitError.NotAuthorized)
  else ({ config with note_count := u64SatSub config.note_count 1 }, Option.none)

/-- The handler body of `react_to_note` (lib.rs lines 86-113): the match on
the requested reaction type bumps the corresponding tally and records the
type; afterwards the handler fills in `reactor`, `note` and `bump`. -/
def reactToNoteHandler (reactor : Pubkey) (noteKey : NoteAddr)
    (reaction_type : ReactionType) (reactionBump : Nat) (note : Note)
    (reaction : Reaction) : (Note × Reaction) × Option TellitError :=
  match reaction_type with
  | ReactionType.like =>
    (({ note with likes := u64SatAdd note.likes 1 },
      { reaction with
        reaction_type := ReactionType.like, reactor := reactor, note := noteKey,
        bump := reactionBump }), Option.none)
  | ReactionType.dislike =>
    (({ note with dislikes := u64SatAdd note.dislikes 1 },
      { reaction with
        reaction_type := ReactionType.dislike, reactor := reactor, note := noteKey,
        bump := reactionBump }), Option.none)
  | ReactionType.none => ((note, reaction), Option.some TellitError.InvalidReactionType)

/-- The handler body of `remove_reaction` (lib.rs lines 115-139): the match
on the stored reaction type requires the matching tally to be positive,
decrements it, and resets the stored type to `None`. -/
def removeReactionHandler (note : Note) (reaction : Reaction) :
    (Note × Reaction) × Option TellitError :=
  match reaction.reaction_type with
  | ReactionType.like =>
    if note.likes = 0 then ((note, reaction), Option.some TellitError.InvalidReactionCount)
    else (({ note with likes := u64SatSub note.likes 1 },
           { reaction with reaction_type := ReactionType.none }), Option.none)
  | ReactionType.dislike =>
    if note.dislikes = 0 then ((note, reaction), Option.some TellitError.InvalidReactionCount)
    else (({ note with dislikes := u64SatSub note.dislikes 1 },
           { reaction with reaction_type := ReactionType.none }), Option.none)
  | ReactionType.none => ((note, reaction), Option.some TellitError.InvalidReactionType)

/-- The second match of `change_reaction` (lib.rs lines 161-174): apply the
new reaction's tally contribution and store the new type. -/
def changeReactionApplyNew (note : Note) (reaction : Reaction)
    (new_reaction_type : ReactionType) : Note × Reaction :=
  match new_reaction_type with
  | ReactionType.like =>
    ({ note with likes := u64SatAdd note.likes 1 },
     { reaction with reaction_type := ReactionType.like })
  | ReactionType.dislike =>
    ({ note with dislikes := u64SatAdd note.dislikes 1 },
     { reaction with reaction_type := ReactionType.dislike })
  | ReactionType.none =>
    (note, { reaction with reaction_type := ReactionType.none })

/-- The handler body of `change_reaction` (lib.rs lines 141-177): first
reverse the stored reaction's tally contribution (a stored `None` reverses
nothing), then apply the new one. -/
def changeReactionHandler (note : Note) (reaction : Reaction)
    (new_reaction_type : ReactionType) : (Note × Reaction) × Option TellitError :=
  match reaction.reaction_type with
  | ReactionType.like =>
    if note.likes = 0 then ((note, reaction), Option.some TellitError.InvalidReactionCount)
    else (changeReactionApplyNew { note with likes := u64SatSub note.likes 1 }
            reaction new_reaction_type, Option.none)
  | ReactionType.dislike =>
    if note.dislikes = 0 then ((note, reaction), Option.some TellitError.InvalidReactionCount)
    else (changeReactionApplyNew { note with dislikes := u64SatSub note.dislikes 1 }
            reaction new_reaction_type, Option.none)
  | ReactionType.none =>
    (changeReactionApplyNew note reaction new_reaction_type, Option.none)

/-- The persisted ledger state the program touches: the config singleton
and the note and reaction accounts, keyed by their PDAs. -/
structure Chain where
  config : Config
  notes : List (NoteAddr × Note)
  reactions : List (ReactionAddr × Reaction)
deriving DecidableEq

/-- State after `initialize` (lib.rs lines 27-33): the config singleton
holds the deployer's key and a zero note count; no notes, no reactions. -/
def initChain (authority : Pubkey) : Chain :=
  ⟨⟨authority, 0, 0⟩, [], []⟩

/-- Does the note account's re-derived PDA match its actual address?  Every
Accounts struct of the program re-derives the note PDA from the note's
current `author`, `receiver`, `title` and `content`
(`seeds = [b"note", note.author.as_ref(), note.receiver.as_ref(),
&create_content_hash(&note.title, &note.content)]`, lib.rs lines 220, 227,
238, 248, 258). -/
def noteSeedsOk (addr : NoteAddr) (note : Note) : Prop :=
  deriveNoteAddr note.author note.receiver note.title note.content = addr

instance (addr : NoteAddr) (note : Note) : Decidable (noteSeedsOk addr note) := by
  unfold noteSeedsOk; infer_instance

/-- The full `send_note` instruction: the SendNote accounts struct
(lib.rs lines 203-215) derives the note PDA and `init`-allocates it — the
allocation fails when the address is occupied — then the handler runs on
the zero-initialized account. -/
def sendNote (now : Int) (author receiver : Pubkey) (title content : String)
    (s : Chain) : Except ProgError Chain :=
  let addr := deriveNoteAddr author receiver title content
  match alistLookup s.notes addr with
  | Option.some _ => Except.error ProgError.allocOccupied
  | Option.none =>
    match sendNoteHandler now author receiver title content 0 zeroNote s.config with
    | (_, Option.some e) => Except.error (ProgError.tellit e)
    | ((note', config'), Option.none) =>
      Except.ok { s with config := config', notes := (addr, note') :: s.notes }

/-- The full `edit_note` instruction: the EditNote accounts struct
(lib.rs lines 217-223) loads the note, re-derives its PDA from the stored
fields, checks the author constraint, then the handler runs. -/
def editNote (now : Int) (addr : NoteAddr) (author : Pubkey)
    (new_title new_content : String) (s : Chain) : Except ProgError Chain :=
  match alistLookup s.notes addr with
  | Option.none => Except.error ProgError.accountMissing
  | Option.some note =>
    if ¬ noteSeedsOk addr note then Except.error ProgError.seedsMismatch
    else if ¬ note.author = author then Except.error (ProgError.tellit TellitError.NotAuthorized)
    else
      match editNoteHandler now author new_title new_content note with
      | (_, Option.some e) => Except.error (ProgError.tellit e)
      | (note', Option.none) => Except.ok { s with notes := alistUpdate s.notes addr note' }

/-- The full `delete_note` instruction: the DeleteNote accounts struct
(lib.rs lines 256-264) loads the note and re-derives its PDA from the
stored fields; after the handler succeeds, `close = deleter` deallocates
the note account. -/
def deleteNote (addr : NoteAddr) (deleter : Pubkey) (s : Chain) :
    Except ProgError Chain :=
  match alistLookup s.notes addr with
  | Option.none => Except.error ProgError.accountMissing
  | Option.some note =>
    if ¬ noteSeedsOk addr note then Except.error ProgError.seedsMismatch
    else
      match deleteNoteHandler deleter note s.config with
      | (_, Option.some e) => Except.error (ProgError.tellit e)
      | (config', Option.none) =>
        Except.ok { s with config := config', notes := alistEraseKey s.notes addr }

/-- The full `react_to_note` instruction: the ReactToNote accounts struct
(lib.rs lines 225-234) loads the note (re-deriving its PDA from the stored
fields) and `init`-allocates the reaction at
`[b"reaction", note.key(), reactor.key()]`, failing when occupied. -/
def reactToNote (addr : NoteAddr) (reactor : Pubkey) (reaction_type : ReactionType)
    (s : Chain) : Except ProgError Chain :=
  match alistLookup s.notes addr with
  | Option.none => Except.error ProgError.accountMissing
  | Option.some note =>
    if ¬ noteSeedsOk addr note then Except.error ProgError.seedsMismatch
    else
      match alistLookup s.reactions (addr, reactor) with
      | Option.some _ => Except.error ProgError.allocOccupied
      | Option.none =>
        match reactToNoteHandler reactor addr reaction_type 0 note zeroReaction with
        | (_, Option.some e) => Except.error (ProgError.tellit e)
        | ((note', reaction'), Option.none) =>
          Except.ok { s with
            notes := alistUpdate s.notes addr note',
            reactions := ((addr, reactor), reaction') :: s.reactions }

/-- The full `remove_reaction` instruction: the RemoveReaction accounts
struct (lib.rs lines 236-244) loads both accounts (the reaction's own PDA
check is identity in the model, since it is keyed by exactly its seeds)
and checks `reaction.reactor == reactor.key()`. -/
def removeReaction (addr : NoteAddr) (reactor : Pubkey) (s : Chain) :
    Except ProgError Chain :=
  match alistLookup s.notes addr with
  | Option.none => Except.error ProgError.accountMissing
  | Option.some note =>
    if ¬ noteSeedsOk addr note then Except.error ProgError.seedsMismatch
    else
      match alistLookup s.reactions (addr, reactor) with
      | Option.none => Except.error ProgError.accountMissing
      | Option.some reaction =>
        if ¬ reaction.reactor = reactor then
          Except.error (ProgError.tellit TellitError.NotAuthorized)
        else
          match removeReactionHandler note reaction with
          | (_, Option.some e) => Except.error (ProgError.tellit e)
          | ((note', reaction'), Option.none) =>
            Except.ok { s with
              notes := alistUpdate s.notes addr note',
              reactions := alistUpdate s.reactions (addr, reactor) reaction' }

/-- The full `change_reaction` instruction (ChangeReaction accounts struct,
lib.rs lines 246-254; same account constraints as `remove_reaction`). -/
def changeReaction (addr : NoteAddr) (reactor : Pubkey)
    (new_reaction_type : ReactionType) (s : Chain) : Except ProgError Chain :=
  match alistLookup s.notes addr with
  | Option.none => Except.error ProgError.accountMissing
  | Option.some note =>
    if ¬ noteSeedsOk addr note then Except.error ProgError.seedsMismatch
    else
      match alistLookup s.reactions (addr, reactor) with
      | Option.none => Except.error ProgError.accountMissing
      | Option.some reaction =>
        if ¬ reaction.reactor = reactor then
          Except.error (ProgError.tellit TellitError.NotAuthorized)
        else
          match changeReactionHandler note reaction new_reaction_type with
          | (_, Option.some e) => Except.error (ProgError.tellit e)
          | ((note', reaction'), Option.none) =>
            Except.ok { s with
              notes := alistUpdate s.notes addr note',
              reactions := alistUpdate s.reactions (addr, reactor) reaction' }

/-- One caller-submitted instruction. -/
inductive Op where
  | send (now : Int) (author receiver : Pubkey) (title content : String)
  | edit (now : Int) (addr : NoteAddr) (author : Pubkey) (new_title new_content : String)
  | delete (addr : NoteAddr) (deleter : Pubkey)
  | react (addr : NoteAddr) (reactor : Pubkey) (t : ReactionType)
  | change (addr : NoteAddr) (reactor : Pubkey) (t : ReactionType)
  | remove (addr : NoteAddr) (reactor : Pubkey)

/-- Run one instruction. -/
def runOp (op : Op) (s : Chain) : Except ProgError Chain :=
  match op with
  | Op.send now a r t c => sendNote now a r t c s
  | Op.edit now addr a t c => editNote now addr a t c s
  | Op.delete addr d => deleteNote addr d s
  | Op.react addr r t => reactToNote addr r t s
  | Op.change addr r t => changeReaction addr r t s
  | Op.remove addr r => removeReaction addr r s

/-- Modelled from the spec: an operation either fully commits or fully
aborts with no persisted side effect (the host ledger rolls a failed
transaction back; spec sections 5 and 7).  A failed instruction therefore
leaves the chain state exactly as it was. -/
def applyOp (op : Op) (s : Chain) : Chain :=
  match runOp op s with
  | Except.ok s' => s'
  | Except.error _ => s

/-- Run a sequence of instructions. -/
def runOps (ops : List Op) (s : Chain) : Chain :=
  ops.foldl (fun st op => applyOp op st) s

/-- Number of reaction records attached to the note at `addr` whose stored
type is `t`. -/
def reactionTypeCountAt (addr : NoteAddr) (t : ReactionType) (s : Chain) : Nat :=
  s.reactions.countP (fun kv => decide (kv.1.1 = addr) && decide (kv.2.reaction_type = t))

/-- Number of reaction records attached to the note at `addr`. -/
def reactionCountAt (addr : NoteAddr) (s : Chain) : Nat :=
  s.reactions.countP (fun kv => decide (kv.1.1 = addr))

/-! ## Association-list lemmas -/

theorem alistLookup_cons_self {α β : Type} [DecidableEq α] (k : α) (v : β)
    (l : List (α × β)) : alistLookup ((k, v) :: l) k = Option.some v := by
  simp [alistLookup]

theorem alistLookup_update_self {α β : Type} [DecidableEq α]
    {l : List (α × β)} {k : α} {v₀ : β} (v : β)
    (h : alistLookup l k = Option.some v₀) :
    alistLookup (alistUpdate l k v) k = Option.some v := by
  induction l with
  | nil => simp [alistLookup] at h
  | cons p t ih =>
    obtain ⟨a, b⟩ := p
    by_cases hak : a = k
    · subst hak
      simp [alistUpdate, alistLookup]
    · simp only [alistLookup, if_neg hak] at h
      simp [alistUpdate, alistLookup, hak, ih h]

theorem alistLookup_eq_none_of_not_mem {α β : Type} [DecidableEq α]
    {l : List (α × β)} {k : α} (h : k ∉ l.map Prod.fst) :
    alistLookup l k = Option.none := by
  induction l with
  | nil => simp [alistLookup]
  | cons p t ih =>
    obtain ⟨a, b⟩ := p
    simp only [List.map_cons, List.mem_cons, not_or] at h
    have hak : ¬ a = k := fun hh => h.1 hh.symm
    simp [alistLookup, hak, ih h.2]

theorem alistLookup_eraseKey_self {α β : Type} [DecidableEq α]
    {l : List (α × β)} (k : α) (hnd : (l.map Prod.fst).Nodup) :
    alistLookup (alistEraseKey l k) k = Option.none := by
  induction l with
  | nil => simp [alistEraseKey, alistLookup]
  | cons p t ih =>
    obtain ⟨a, b⟩ := p
    simp only [List.map_cons, List.nodup_cons] at hnd
    by_cases hak : a = k
    · subst hak
      simpa [alistEraseKey] using alistLookup_eq_none_of_not_mem hnd.1
    · simp [alistEraseKey, alistLookup, hak, ih hnd.2]

theorem alistUpdate_countP {α β : Type} [DecidableEq α]
    {l : List (α × β)} {k : α} {v₀ : β} (v : β) (p : α × β → Bool)
    (h : alistLookup l k = Option.some v₀) :
    (alistUpdate l k v).countP p + (if p (k, v₀) then 1 else 0)
      = l.countP p + (if p (k, v) then 1 else 0) := by
  induction l with
  | nil => simp [alistLookup] at h
  | cons q t ih =>
    obtain ⟨a, b⟩ := q
    by_cases hak : a = k
    · subst hak
      rw [alistLookup, if_pos rfl] at h
      injection h with hb
      subst hb
      simp only [alistUpdate, eq_self_iff_true, if_true, List.countP_cons]
      omega
    · rw [alistLookup, if_neg hak] at h
      have := ih h
      simp only [alistUpdate, if_neg hak, List.countP_cons]
      omega

theorem alistUpdate_fst {α β : Type} [DecidableEq α]
    (l : List (α × β)) (k : α) (v : β) :
    (alistUpdate l k v).map Prod.fst = l.map Prod.fst := by
  induction l with
  | nil => simp [alistUpdate]
  | cons q t ih =>
    obtain ⟨a, b⟩ := q
    by_cases hak : a = k
    · subst hak; simp [alistUpdate]
    · simp [alistUpdate, hak, ih]

/-! ## Saturating-arithmetic lemmas -/

theorem u64SatAdd_le (a b : Nat) : u64SatAdd a b ≤ u64Max :=
  min_le_right _ _

theorem u64SatAdd_one_of_lt {a : Nat} (h : a < u64Max) : u64SatAdd a 1 = a + 1 := by
  unfold u64SatAdd
  omega

theorem u64SatSub_le (a b : Nat) : u64SatSub a b ≤ a :=
  Nat.sub_le _ _

/-! ## Claim C2 — the pre-hash byte stream and its separator -/

/-- The pre-hash stream as a character list: title, `':'`, content. -/
theorem preHashInput_data (t c : String) :
    (preHashInput t c).data = t.data ++ ':' :: c.data := by
  show ((t ++ ":") ++ c).data = _
  rw [String.data_append, String.data_append]
  simp

theorem sep_append_inj : ∀ (l₁ l₂ r₁ r₂ : List Char),
    ':' ∉ l₁ → ':' ∉ l₂ →
    l₁ ++ ':' :: r₁ = l₂ ++ ':' :: r₂ → l₁ = l₂ ∧ r₁ = r₂ := by
  intro l₁
  induction l₁ with
  | nil =>
    intro l₂ r₁ r₂ _ h₂ h
    cases l₂ with
    | nil => simpa using h
    | cons a t =>
      simp only [List.nil_append, List.cons_append, List.cons.injEq] at h
      exact absurd (h.1 ▸ List.mem_cons_self a t) h₂
  | cons a t ih =>
    intro l₂ r₁ r₂ h₁ h₂ h
    cases l₂ with
    | nil =>
      simp only [List.cons_append, List.nil_append, List.cons.injEq] at h
      exact absurd (h.1 ▸ List.mem_cons_self a t) h₁
    | cons b u =>
      simp only [List.cons_append, List.cons.injEq] at h
      obtain ⟨hab, hrest⟩ := h
      have := ih u r₁ r₂ (fun hm => h₁ (List.mem_cons_of_mem _ hm))
        (fun hm => h₂ (List.mem_cons_of_mem _ hm)) hrest
      exact ⟨by simp [hab, this.1], this.2⟩

/-- Claim C2 (amended): the byte stream fed to the content hash separates
title from content unambiguously for titles that do not contain the
separator byte `':'`: two pairs whose titles are `':'`-free and whose
pre-hash streams coincide are the same pair.  (The unrestricted claim is
refuted by `tellit_c2_counterexample`.) -/
theorem tellit_c2_prehash_injective (t₁ c₁ t₂ c₂ : String)
    (h₁ : ':' ∉ t₁.data) (h₂ : ':' ∉ t₂.data)
    (h : preHashInput t₁ c₁ = preHashInput t₂ c₂) : t₁ = t₂ ∧ c₁ = c₂ := by
  have hd : t₁.data ++ ':' :: c₁.data = t₂.data ++ ':' :: c₂.data := by
    have := congrArg String.data h
    rwa [preHashInput_data, preHashInput_data] at this
  obtain ⟨ht, hc⟩ := sep_append_inj _ _ _ _ h₁ h₂ hd
  exact ⟨String.ext ht, String.ext hc⟩

/-- Witness for C2's amended theorem at a concrete input. -/
theorem tellit_c2_prehash_injective_witness :
    ("ab" : String) = "ab" ∧ ("cd" : String) = "cd" :=
  tellit_c2_prehash_injective "ab" "cd" "ab" "cd" (by decide) (by decide) rfl

/-- Counterexample to C2 as stated: the two distinct pairs
`("a:", "b")` and `("a", ":b")` feed the identical byte stream `"a::b"`
to the hash, because the title may itself contain the separator byte. -/
theorem tellit_c2_counterexample :
    preHashInput "a:" "b" = preHashInput "a" ":b"
      ∧ ¬ (("a:" : String) = "a" ∧ ("b" : String) = ":b") := by
  exact ⟨rfl, by decide⟩

/-! ## Inversion of a successful send_note -/

/-- What a successful `send_note` did: the derived address was free, the
guards passed, the note was stored with exactly the input fields, equal
timestamps and zero tallies, and the counter was saturating-incremented. -/
theorem sendNote_ok_elim {now : Int} {a r : Pubkey} {t c : String} {s s' : Chain}
    (h : sendNote now a r t c s = Except.ok s') :
    alistLookup s.notes (deriveNoteAddr a r t c) = Option.none ∧
    ¬ a = r ∧ t.utf8ByteSize ≤ 50 ∧ c.utf8ByteSize ≤ 300 ∧
    s' = { s with
      config := { s.config with note_count := u64SatAdd s.config.note_count 1 },
      notes := (deriveNoteAddr a r t c, ⟨a, r, t, c, 0, 0, now, now, 0⟩) :: s.notes } := by
  simp only [sendNote] at h
  split at h
  · exact Except.noConfusion h
  next hl =>
    simp only [sendNoteHandler] at h
    split_ifs at h with h1 h2 h3 h4
    all_goals first
      | exact Except.noConfusion h
      | exact ⟨hl, h1, by omega, by omega, (Except.ok.inj h).symm⟩

/-! ## Claims C3, C4, C5 — send_note -/

/-- Claim C3 (amended): a successful `send_note` stores, at the derived
address, a note whose `author`, `receiver`, `title` and `content` are the
inputs, with `created_at = updated_at`, `likes = dislikes = 0`, and sets
`Config.note_count` to its saturating successor — an increment by exactly
1 whenever the counter was below `2^64 - 1` (at the maximum it stays put,
which refutes the unconditional "exactly 1"; see the counterexample). -/
theorem tellit_c3_send_note_stores (now : Int) (a r : Pubkey) (t c : String)
    (s s' : Chain) (h : sendNote now a r t c s = Except.ok s') :
    alistLookup s'.notes (deriveNoteAddr a r t c)
        = Option.some ⟨a, r, t, c, 0, 0, now, now, 0⟩
      ∧ s'.config.note_count = u64SatAdd s.config.note_count 1
      ∧ (s.config.note_count < u64Max →
          s'.config.note_count = s.config.note_count + 1) := by
  obtain ⟨hl, h1, h2, h3, hs⟩ := sendNote_ok_elim h
  subst hs
  exact ⟨alistLookup_cons_self _ _ _, rfl, fun hlt => u64SatAdd_one_of_lt hlt⟩

/-- State of the ledger used in several concrete runs: the deployer `0`
initialized the config, then author `1` sent receiver `2` the note
`("hi", "yo")` at clock 5. -/
def cDemo1 : Chain :=
  ⟨⟨0, 0, 1⟩, [(deriveNoteAddr 1 2 "hi" "yo", ⟨1, 2, "hi", "yo", 0, 0, 5, 5, 0⟩)], []⟩

/-- Witness for C3 at a concrete input. -/
theorem tellit_c3_send_note_stores_witness :
    alistLookup cDemo1.notes (deriveNoteAddr 1 2 "hi" "yo")
        = Option.some ⟨1, 2, "hi", "yo", 0, 0, 5, 5, 0⟩
      ∧ cDemo1.config.note_count = (initChain 0).config.note_count + 1 := by
  have h := tellit_c3_send_note_stores 5 1 2 "hi" "yo" (initChain 0) cDemo1 rfl
  exact ⟨h.1, h.2.2 (by norm_num [initChain, u64Max])⟩

/-- A ledger whose note counter already sits at the `u64` maximum. -/
def cMax : Chain := ⟨⟨0, 0, u64Max⟩, [], []⟩

/-- `cMax` after a successful `send_note`: the counter saturates. -/
def cMaxAfter : Chain :=
  ⟨⟨0, 0, u64Max⟩, [(deriveNoteAddr 1 2 "t" "c", ⟨1, 2, "t", "c", 0, 0, 7, 7, 0⟩)], []⟩

/-- Counterexample to C3 as stated: with the counter at `2^64 - 1`,
`send_note` succeeds yet `note_count` does not increase by 1 — the
saturating add leaves it unchanged. -/
theorem tellit_c3_counterexample :
    sendNote 7 1 2 "t" "c" cMax = Except.ok cMaxAfter
      ∧ cMaxAfter.config.note_count ≠ cMax.config.note_count + 1 := by
  refine ⟨rfl, ?_⟩
  show u64Max ≠ u64Max + 1
  omega

/-- `send_note` can never surface `NoteAlreadyExists`: when the derived
address is occupied the allocator fails first, and when it is free the
freshly allocated note is zeroed, so its `author` is the default key and
the duplicate check at lib.rs line 46 always passes. -/
theorem sendNote_never_noteAlreadyExists (now : Int) (a r : Pubkey) (t c : String)
    (s : Chain) :
    sendNote now a r t c s ≠ Except.error (ProgError.tellit TellitError.NoteAlreadyExists) := by
  intro h
  simp only [sendNote] at h
  split at h
  · exact ProgError.noConfusion (Except.error.inj h)
  · simp only [sendNoteHandler] at h
    split_ifs at h with h1 h2 h3 h4
    all_goals first
      | exact Except.noConfusion h
      | exact TellitError.noConfusion (ProgError.tellit.inj (Except.error.inj h))
      | exact ProgError.noConfusion (Except.error.inj h)
      | exact h4 rfl

/-- Claim C4 (amended): after a successful `send_note`, repeating the same
`(author, receiver, title, content)` fails with the allocator's
occupied-address error — before any mutation, at account resolution — and
the counter rises by exactly 1 across the two calls whenever it was below
`2^64 - 1` (it saturates at the maximum; see the counterexample).  The
`NoteAlreadyExists` branch inside the handler is unreachable on every
input. -/
theorem tellit_c4_duplicate_send (now now₂ : Int) (a r : Pubkey) (t c : String)
    (s s' : Chain) (h : sendNote now a r t c s = Except.ok s') :
    sendNote now₂ a r t c s' = Except.error ProgError.allocOccupied
      ∧ (s.config.note_count < u64Max →
          s'.config.note_count = s.config.note_count + 1)
      ∧ (∀ (now₃ : Int) (a₃ r₃ : Pubkey) (t₃ c₃ : String) (s₃ : Chain),
          sendNote now₃ a₃ r₃ t₃ c₃ s₃
            ≠ Except.error (ProgError.tellit TellitError.NoteAlreadyExists)) := by
  obtain ⟨hl, h1, h2, h3, hs⟩ := sendNote_ok_elim h
  subst hs
  refine ⟨?_, fun hlt => u64SatAdd_one_of_lt hlt,
    fun now₃ a₃ r₃ t₃ c₃ s₃ => sendNote_never_noteAlreadyExists now₃ a₃ r₃ t₃ c₃ s₃⟩
  simp [sendNote, alistLookup]

/-- Witness for C4 at a concrete input: the same send repeated. -/
theorem tellit_c4_duplicate_send_witness :
    sendNote 6 1 2 "hi" "yo" cDemo1 = Except.error ProgError.allocOccupied
      ∧ cDemo1.config.note_count = (initChain 0).config.note_count + 1 := by
  have h := tellit_c4_duplicate_send 5 6 1 2 "hi" "yo" (initChain 0) cDemo1 rfl
  exact ⟨h.1, h.2.1 (by norm_num [initChain, u64Max])⟩

/-- Counterexample to C4 as stated: with the counter already at
`2^64 - 1`, the first send succeeds, the second fails as claimed, but the
counter increases by 0 across the two calls, not by exactly 1. -/
theorem tellit_c4_counterexample :
    sendNote 7 1 2 "t" "c" cMax = Except.ok cMaxAfter
      ∧ sendNote 8 1 2 "t" "c" cMaxAfter = Except.error ProgError.allocOccupied
      ∧ cMaxAfter.config.note_count = cMax.config.note_count := by
  exact ⟨rfl, rfl, rfl⟩

/-- Claim C5 (confirmed): `send_note` fails with `CannotSendToSelf` when
author = receiver, with `TitleTooLong` when the title exceeds 50 bytes
(and the self-send check passed), and with `ContentTooLong` when the
content exceeds 300 bytes (and the earlier checks passed); in each case
the handler leaves both accounts untouched and the instruction aborts,
so no record is created or mutated and the counter is unchanged. -/
theorem tellit_c5_send_note_guards (now : Int) (a r : Pubkey) (t c : String)
    (nb : Nat) (n : Note) (cfg : Config) (s : Chain) :
    (a = r →
      sendNoteHandler now a r t c nb n cfg
          = ((n, cfg), Option.some TellitError.CannotSendToSelf)
        ∧ (alistLookup s.notes (deriveNoteAddr a r t c) = Option.none →
            sendNote now a r t c s
              = Except.error (ProgError.tellit TellitError.CannotSendToSelf)))
    ∧ (¬ a = r → 50 < t.utf8ByteSize →
      sendNoteHandler now a r t c nb n cfg
          = ((n, cfg), Option.some TellitError.TitleTooLong)
        ∧ (alistLookup s.notes (deriveNoteAddr a r t c) = Option.none →
            sendNote now a r t c s
              = Except.error (ProgError.tellit TellitError.TitleTooLong)))
    ∧ (¬ a = r → t.utf8ByteSize ≤ 50 → 300 < c.utf8ByteSize →
      sendNoteHandler now a r t c nb n cfg
          = ((n, cfg), Option.some TellitError.ContentTooLong)
        ∧ (alistLookup s.notes (deriveNoteAddr a r t c) = Option.none →
            sendNote now a r t c s
              = Except.error (ProgError.tellit TellitError.ContentTooLong))) := by
  refine ⟨fun h1 => ⟨?_, fun hl => ?_⟩,
          fun h1 h2 => ⟨?_, fun hl => ?_⟩,
          fun h1 h2 h3 => ⟨?_, fun hl => ?_⟩⟩
  · simp [sendNoteHandler, h1]
  · subst h1
    simp [sendNote, hl, sendNoteHandler]
  · simp [sendNoteHandler, h1, h2]
  · simp [sendNote, hl, sendNoteHandler, h1, h2]
  · simp [sendNoteHandler, h1, h3, Nat.not_lt.mpr h2]
  · simp [sendNote, hl, sendNoteHandler, h1, h3, Nat.not_lt.mpr h2]

/-- A title of 51 bytes. -/
def longTitle : String := String.mk (List.replicate 51 'a')

/-- A content of 301 bytes. -/
def longContent : String := String.mk (List.replicate 301 'a')

/-! ## Claims C6, C7 — delete_note and the global counter -/

/-- What a successful `delete_note` did: the note existed at a
seeds-consistent address, the deleter was author or receiver, the account
was closed and the counter saturating-decremented. -/
theorem deleteNote_ok_elim {addr : NoteAddr} {d : Pubkey} {s s' : Chain}
    (h : deleteNote addr d s = Except.ok s') :
    ∃ note, alistLookup s.notes addr = Option.some note ∧ noteSeedsOk addr note
      ∧ (d = note.author ∨ d = note.receiver)
      ∧ s' = { s with
          config := { s.config with note_count := u64SatSub s.config.note_count 1 },
          notes := alistEraseKey s.notes addr } := by
  simp only [deleteNote] at h
  split at h
  · exact Except.noConfusion h
  next note heq =>
    split_ifs at h with hs
    simp only [deleteNoteHandler] at h
    split_ifs at h with ha
    all_goals first
      | exact Except.noConfusion h
      | exact ⟨note, heq, hs, ha, (Except.ok.inj h).symm⟩

/-- A successful `edit_note` leaves the config account untouched. -/
theorem editNote_ok_config {now : Int} {addr : NoteAddr} {a : Pubkey}
    {t c : String} {s s' : Chain} (h : editNote now addr a t c s = Except.ok s') :
    s'.config = s.config := by
  simp only [editNote] at h
  split at h
  · exact Except.noConfusion h
  · split_ifs at h with hs ha
    simp only [editNoteHandler] at h
    split_ifs at h
    all_goals first
      | exact Except.noConfusion h
      | exact (congrArg Chain.config (Except.ok.inj h)).symm

/-- Claim C6 (confirmed): on a stored, seeds-consistent note, `delete_note`
by a caller that is neither the author nor the receiver fails with
`NotAuthorized`, the handler leaving the config (hence `note_count`)
untouched; by the author or the receiver it succeeds, closes the note
account, and applies the saturating decrement to `note_count`.  The
`Nodup` hypothesis states that each address holds at most one account, as
the ledger guarantees. -/
theorem tellit_c6_delete_note_auth (addr : NoteAddr) (d : Pubkey) (s : Chain)
    (note : Note) (h : alistLookup s.notes addr = Option.some note)
    (hseeds : noteSeedsOk addr note)
    (hnd : (s.notes.map Prod.fst).Nodup) :
    (¬ d = note.author → ¬ d = note.receiver →
      deleteNote addr d s = Except.error (ProgError.tellit TellitError.NotAuthorized)
        ∧ deleteNoteHandler d note s.config
            = (s.config, Option.some TellitError.NotAuthorized))
    ∧ ((d = note.author ∨ d = note.receiver) →
      deleteNote addr d s
          = Except.ok { s with
              config := { s.config with
                note_count := u64SatSub s.config.note_count 1 },
              notes := alistEraseKey s.notes addr }
        ∧ alistLookup (alistEraseKey s.notes addr) addr = Option.none) := by
  constructor
  · intro h1 h2
    have hno : ¬ (d = note.author ∨ d = note.receiver) := by tauto
    constructor
    · simp [deleteNote, h, hseeds, deleteNoteHandler, hno]
    · simp [deleteNoteHandler, hno]
  · intro hyes
    constructor
    · simp [deleteNote, h, hseeds, deleteNoteHandler, not_not_intro hyes]
    · exact alistLookup_eraseKey_self addr hnd

/-- Witness for C6 at concrete inputs: the third party `9` is rejected,
the receiver `2` deletes. -/
theorem tellit_c6_delete_note_auth_witness :
    deleteNote (deriveNoteAddr 1 2 "hi" "yo") 9 cDemo1
        = Except.error (ProgError.tellit TellitError.NotAuthorized)
      ∧ deleteNote (deriveNoteAddr 1 2 "hi" "yo") 2 cDemo1
        = Except.ok { cDemo1 with
            config := { cDemo1.config with
              note_count := u64SatSub cDemo1.config.note_count 1 },
            notes := alistEraseKey cDemo1.notes (deriveNoteAddr 1 2 "hi" "yo") } := by
  have h := tellit_c6_delete_note_auth (deriveNoteAddr 1 2 "hi" "yo") 9 cDemo1
    ⟨1, 2, "hi", "yo", 0, 0, 5, 5, 0⟩ (by decide) (by decide) (by decide)
  have h2 := tellit_c6_delete_note_auth (deriveNoteAddr 1 2 "hi" "yo") 2 cDemo1
    ⟨1, 2, "hi", "yo", 0, 0, 5, 5, 0⟩ (by decide) (by decide) (by decide)
  exact ⟨(h.1 (by decide) (by decide)).1, (h2.2 (Or.inr rfl)).1⟩

/-- The effect of any one successful instruction on the global counter:
unchanged, saturating increment, or saturating decrement. -/
theorem runOp_ok_note_count (op : Op) (s s' : Chain)
    (h : runOp op s = Except.ok s') :
    s'.config.note_count = s.config.note_count
      ∨ s'.config.note_count = u64SatAdd s.config.note_count 1
      ∨ s'.config.note_count = u64SatSub s.config.note_count 1 := by
  cases op with
  | send now a r t c =>
    obtain ⟨-, -, -, -, hs⟩ := sendNote_ok_elim h
    subst hs
    exact Or.inr (Or.inl rfl)
  | edit now addr a t c =>
    exact Or.inl (congrArg Config.note_count (editNote_ok_config h))
  | delete addr d =>
    obtain ⟨note, -, -, -, hs⟩ := deleteNote_ok_elim h
    subst hs
    exact Or.inr (Or.inr rfl)
  | react addr r t =>
    simp only [runOp, reactToNote] at h
    split at h
    · exact Except.noConfusion h
    · split_ifs at h with hs
      split at h
      · exact Except.noConfusion h
      · split at h
        all_goals first
          | exact Except.noConfusion h
          | exact Or.inl (congrArg (fun st => st.config.note_count)
              (Except.ok.inj h)).symm
  | change addr r t =>
    simp only [runOp, changeReaction] at h
    split at h
    · exact Except.noConfusion h
    · split_ifs at h with hs
      split at h
      · exact Except.noConfusion h
      · split_ifs at h with hr
        split at h
        all_goals first
          | exact Except.noConfusion h
          | exact Or.inl (congrArg (fun st => st.config.note_count)
              (Except.ok.inj h)).symm
  | remove addr r =>
    simp only [runOp, removeReaction] at h
    split at h
    · exact Except.noConfusion h
    · split_ifs at h with hs
      split at h
      · exact Except.noConfusion h
      · split_ifs at h with hr
        split at h
        all_goals first
          | exact Except.noConfusion h
          | exact Or.inl (congrArg (fun st => st.config.note_count)
              (Except.ok.inj h)).symm

/-- The counter never leaves the `u64` range under any instruction. -/
theorem applyOp_note_count_le (op : Op) (s : Chain)
    (h : s.config.note_count ≤ u64Max) :
    (applyOp op s).config.note_count ≤ u64Max := by
  unfold applyOp
  cases hr : runOp op s with
  | error e => exact h
  | ok s' =>
    rcases runOp_ok_note_count op s s' hr with h1 | h1 | h1 <;> rw [h1]
    · exact h
    · exact u64SatAdd_le _ _
    · exact le_trans (u64SatSub_le _ _) h

theorem runOps_note_count_le (ops : List Op) (s : Chain)
    (h : s.config.note_count ≤ u64Max) :
    (runOps ops s).config.note_count ≤ u64Max := by
  induction ops generalizing s with
  | nil => exact h
  | cons op rest ih => exact ih _ (applyOp_note_count_le op s h)

/-- Claim C7 (confirmed): `Config.note_count` is adjusted by a saturating
`+1` on every successful `send_note` and a saturating `-1` on every
successful `delete_note`; under every operation sequence from the
initialized state it stays within the `u64` range (the `Nat` embedding is
never negative by construction, and it never exceeds `2^64 - 1`);
decrementing at `0` leaves `0` and incrementing at the maximum leaves the
maximum. -/
theorem tellit_c7_note_count_saturating (ops : List Op) (auth : Pubkey) :
    (runOps ops (initChain auth)).config.note_count ≤ u64Max
      ∧ (∀ (now : Int) (a r : Pubkey) (t c : String) (s s' : Chain),
          sendNote now a r t c s = Except.ok s' →
            s'.config.note_count = u64SatAdd s.config.note_count 1
              ∧ (s.config.note_count = u64Max → s'.config.note_count = u64Max))
      ∧ (∀ (addr : NoteAddr) (d : Pubkey) (s s' : Chain),
          deleteNote addr d s = Except.ok s' →
            s'.config.note_count = u64SatSub s.config.note_count 1
              ∧ (s.config.note_count = 0 → s'.config.note_count = 0)) := by
  refine ⟨runOps_note_count_le ops (initChain auth) (by simp [initChain]), ?_, ?_⟩
  · intro now a r t c s s' h
    obtain ⟨-, -, -, -, hs⟩ := sendNote_ok_elim h
    subst hs
    refine ⟨rfl, fun hmax => ?_⟩
    show u64SatAdd s.config.note_count 1 = u64Max
    rw [hmax]
    unfold u64SatAdd
    omega
  · intro addr d s s' h
    obtain ⟨note, -, -, -, hs⟩ := deleteNote_ok_elim h
    subst hs
    refine ⟨rfl, fun h0 => ?_⟩
    show u64SatSub s.config.note_count 1 = 0
    rw [h0]
    rfl

/-- Witness for C7 at concrete inputs. -/
theorem tellit_c7_note_count_saturating_witness :
    (runOps [] (initChain 0)).config.note_count ≤ u64Max
      ∧ cDemo1.config.note_count = u64SatAdd (initChain 0).config.note_count 1 := by
  have h := tellit_c7_note_count_saturating [] 0
  exact ⟨h.1, (h.2.1 5 1 2 "hi" "yo" (initChain 0) cDemo1 rfl).1⟩

/-! ## Claim C1 — edit_note versus seeds re-derivation -/

/-- The PDA of the note author `1` sent receiver `2` as `("a", "b")`. -/
def bugAddr : NoteAddr := deriveNoteAddr 1 2 "a" "b"

/-- Ledger after `send_note(1 → 2, "a", "b")` at clock 10 on a fresh chain. -/
def bugChain1 : Chain :=
  ⟨⟨0, 0, 1⟩, [(bugAddr, ⟨1, 2, "a", "b", 0, 0, 10, 10, 0⟩)], []⟩

/-- Ledger after the author edited that note to `("c", "d")` at clock 20. -/
def bugChain2 : Chain :=
  ⟨⟨0, 0, 1⟩, [(bugAddr, ⟨1, 2, "c", "d", 0, 0, 10, 20, 0⟩)], []⟩

/-- Claim C1 (code bug): `edit_note` itself succeeds, overwrites title and
content, sets `updated_at`, and leaves the record at its original address
— but because every Accounts struct re-derives the expected note PDA from
the note's *current* title and content, every subsequent operation on the
edited note (edit, react, change or remove reaction, delete by either
party) fails the seeds constraint: the note is stuck at an address that no
longer matches its content hash. -/
theorem tellit_c1_edit_bricks_note :
    sendNote 10 1 2 "a" "b" (initChain 0) = Except.ok bugChain1
      ∧ editNote 20 bugAddr 1 "c" "d" bugChain1 = Except.ok bugChain2
      ∧ alistLookup bugChain2.notes bugAddr
          = Option.some ⟨1, 2, "c", "d", 0, 0, 10, 20, 0⟩
      ∧ editNote 30 bugAddr 1 "e" "f" bugChain2
          = Except.error ProgError.seedsMismatch
      ∧ reactToNote bugAddr 3 ReactionType.like bugChain2
          = Except.error ProgError.seedsMismatch
      ∧ changeReaction bugAddr 3 ReactionType.dislike bugChain2
          = Except.error ProgError.seedsMismatch
      ∧ removeReaction bugAddr 3 bugChain2
          = Except.error ProgError.seedsMismatch
      ∧ deleteNote bugAddr 1 bugChain2
          = Except.error ProgError.seedsMismatch
      ∧ deleteNote bugAddr 2 bugChain2
          = Except.error ProgError.seedsMismatch :=
  ⟨rfl, rfl, rfl, rfl, rfl, rfl, rfl, rfl, rfl⟩

/-! ## Claims C8, C10 — change_reaction and its None cases -/

/-- Claim C8 (confirmed): `change_reaction` first reverses the stored
reaction's tally contribution — failing with `InvalidReactionCount` and
leaving both accounts untouched when the matching counter is already 0 —
and then applies the new one (saturating increment for Like/Dislike, none
for None), always storing the new type.  In particular Like→Dislike on
`likes = 1, dislikes = 0` yields `likes = 0, dislikes = 1`. -/
theorem tellit_c8_change_reaction (note : Note) (reaction : Reaction)
    (newT : ReactionType) :
    (reaction.reaction_type = ReactionType.like → note.likes = 0 →
      changeReactionHandler note reaction newT
        = ((note, reaction), Option.some TellitError.InvalidReactionCount))
    ∧ (reaction.reaction_type = ReactionType.dislike → note.dislikes = 0 →
      changeReactionHandler note reaction newT
        = ((note, reaction), Option.some TellitError.InvalidReactionCount))
    ∧ (¬ (reaction.reaction_type = ReactionType.like ∧ note.likes = 0) →
       ¬ (reaction.reaction_type = ReactionType.dislike ∧ note.dislikes = 0) →
      (changeReactionHandler note reaction newT).2 = Option.none
        ∧ (changeReactionHandler note reaction newT).1.1.likes
            = (let base := if reaction.reaction_type = ReactionType.like
                  then u64SatSub note.likes 1 else note.likes;
               if newT = ReactionType.like then u64SatAdd base 1 else base)
        ∧ (changeReactionHandler note reaction newT).1.1.dislikes
            = (let base := if reaction.reaction_type = ReactionType.dislike
                  then u64SatSub note.dislikes 1 else note.dislikes;
               if newT = ReactionType.dislike then u64SatAdd base 1 else base)
        ∧ (changeReactionHandler note reaction newT).1.2
            = { reaction with reaction_type := newT })
    ∧ (reaction.reaction_type = ReactionType.like → note.likes = 1 →
       note.dislikes = 0 →
      changeReactionHandler note reaction ReactionType.dislike
        = (({ note with likes := 0, dislikes := 1 },
            { reaction with reaction_type := ReactionType.dislike }),
           Option.none)) := by
  refine ⟨fun h1 h2 => ?_, fun h1 h2 => ?_, fun hnl hnd => ?_, fun h1 h2 h3 => ?_⟩
  · simp [changeReactionHandler, h1, h2]
  · simp [changeReactionHandler, h1, h2]
  · cases hrt : reaction.reaction_type with
    | none =>
      cases hnt : newT <;>
        simp [changeReactionHandler, changeReactionApplyNew, hrt]
    | like =>
      have hl0 : ¬ note.likes = 0 := fun h0 => hnl ⟨hrt, h0⟩
      cases hnt : newT <;>
        simp [changeReactionHandler, changeReactionApplyNew, hrt, hl0]
    | dislike =>
      have hd0 : ¬ note.dislikes = 0 := fun h0 => hnd ⟨hrt, h0⟩
      cases hnt : newT <;>
        simp [changeReactionHandler, changeReactionApplyNew, hrt, hd0]
  · simp [changeReactionHandler, changeReactionApplyNew, h1, h2, h3,
      u64SatSub, u64SatAdd, u64Max]

/-- A note by `1` for `2` with one like and no dislike. -/
def nDemo : Note := ⟨1, 2, "hi", "yo", 1, 0, 5, 5, 0⟩

/-- Reactor `3`'s stored Like on `nDemo`. -/
def rLikeDemo : Reaction := ⟨3, deriveNoteAddr 1 2 "hi" "yo", ReactionType.like, 0⟩

/-- Reactor `3`'s stored reaction in the `None` state. -/
def rNoneDemo : Reaction := ⟨3, deriveNoteAddr 1 2 "hi" "yo", ReactionType.none, 0⟩

/-- Witness for C8 at a concrete input: Like→Dislike on likes 1, dislikes 0. -/
theorem tellit_c8_change_reaction_witness :
    changeReactionHandler nDemo rLikeDemo ReactionType.dislike
      = ((⟨1, 2, "hi", "yo", 0, 1, 5, 5, 0⟩,
          ⟨3, deriveNoteAddr 1 2 "hi" "yo", ReactionType.dislike, 0⟩),
         Option.none) :=
  (tellit_c8_change_reaction nDemo rLikeDemo ReactionType.dislike).2.2.2 rfl rfl rfl

/-- Claim C10 (confirmed): on a stored reaction of type `None`,
`change_reaction` never fails — the reversal step is a no-op; with
Like/Dislike it saturating-increments the matching tally and stores the
new type, and with `None` it leaves both the tallies and the stored type
unchanged — while `react_to_note` rejects a `None` input and
`remove_reaction` rejects a stored `None`, both with
`InvalidReactionType`. -/
theorem tellit_c10_change_reaction_none (note : Note) (reaction : Reaction)
    (newT : ReactionType) (h : reaction.reaction_type = ReactionType.none) :
    (changeReactionHandler note reaction newT).2 = Option.none
      ∧ changeReactionHandler note reaction ReactionType.like
          = (({ note with likes := u64SatAdd note.likes 1 },
              { reaction with reaction_type := ReactionType.like }), Option.none)
      ∧ changeReactionHandler note reaction ReactionType.dislike
          = (({ note with dislikes := u64SatAdd note.dislikes 1 },
              { reaction with reaction_type := ReactionType.dislike }), Option.none)
      ∧ changeReactionHandler note reaction ReactionType.none
          = ((note, reaction), Option.none)
      ∧ (∀ (reactor : Pubkey) (noteKey : NoteAddr) (rb : Nat)
            (n₂ : Note) (r₂ : Reaction),
          reactToNoteHandler reactor noteKey ReactionType.none rb n₂ r₂
            = ((n₂, r₂), Option.some TellitError.InvalidReactionType))
      ∧ removeReactionHandler note reaction
          = ((note, reaction), Option.some TellitError.InvalidReactionType) := by
  refine ⟨?_, ?_, ?_, ?_, ?_, ?_⟩
  · cases hnt : newT <;> simp [changeReactionHandler, changeReactionApplyNew, h]
  · simp [changeReactionHandler, changeReactionApplyNew, h]
  · simp [changeReactionHandler, changeReactionApplyNew, h]
  · obtain ⟨rr, rn, rt, rb⟩ := reaction
    simp only [Reaction.mk.injEq] at h ⊢
    subst h
    simp [changeReactionHandler, changeReactionApplyNew]
  · intro reactor noteKey rb n₂ r₂
    simp [reactToNoteHandler]
  · simp [removeReactionHandler, h]

/-- Witness for C10 at a concrete input. -/
theorem tellit_c10_change_reaction_none_witness :
    (changeReactionHandler nDemo rNoneDemo ReactionType.like).2 = Option.none
      ∧ removeReactionHandler nDemo rNoneDemo
        = ((nDemo, rNoneDemo), Option.some TellitError.InvalidReactionType) := by
  have h := tellit_c10_change_reaction_none nDemo rNoneDemo ReactionType.like rfl
  exact ⟨h.1, h.2.2.2.2.2⟩

/-! ## Claim C9 — the tally invariant -/

/-- The `u64` maximum as a numeral. -/
theorem u64Max_lit : u64Max = 18446744073709551615 := by
  norm_num [u64Max]

/-- The tally invariant for the note at `addr`: its stored `likes` and
`dislikes` equal the number of reaction records attached to it whose
stored type is Like, respectively Dislike. -/
def TallyInvAt (addr : NoteAddr) (s : Chain) : Prop :=
  ∀ note, alistLookup s.notes addr = Option.some note →
    note.likes = reactionTypeCountAt addr ReactionType.like s
      ∧ note.dislikes = reactionTypeCountAt addr ReactionType.dislike s

theorem reactionTypeCountAt_le (addr : NoteAddr) (t : ReactionType) (s : Chain) :
    reactionTypeCountAt addr t s ≤ reactionCountAt addr s := by
  refine List.countP_mono_left ?_
  intro kv _ hkv
  simp only [Bool.and_eq_true] at hkv
  exact hkv.1

/-- A successful `react_to_note` preserves the tally invariant and attaches
one more reaction record to the note. -/
theorem reactToNote_ok_tally {addr : NoteAddr} {r : Pubkey} {t : ReactionType}
    {s s' : Chain} (h : reactToNote addr r t s = Except.ok s')
    (hinv : TallyInvAt addr s) (hcnt : reactionCountAt addr s < u64Max) :
    TallyInvAt addr s' ∧ reactionCountAt addr s' = reactionCountAt addr s + 1 := by
  have hlike := reactionTypeCountAt_le addr ReactionType.like s
  have hdis := reactionTypeCountAt_le addr ReactionType.dislike s
  simp only [reactToNote] at h
  split at h
  · exact Except.noConfusion h
  next note heq =>
    split_ifs at h with hs
    split at h
    · exact Except.noConfusion h
    next heqr =>
      obtain ⟨hl, hd⟩ := hinv note heq
      cases t with
      | none => simp [reactToNoteHandler] at h
      | like =>
        simp only [reactToNoteHandler] at h
        have hs' := (Except.ok.inj h).symm
        subst hs'
        refine ⟨?_, ?_⟩
        · intro n hn
          rw [alistLookup_update_self _ heq] at hn
          injection hn with hn
          subst hn
          constructor
          · show u64SatAdd note.likes 1 = _
            rw [u64SatAdd_one_of_lt (by omega)]
            simp [reactionTypeCountAt, List.countP_cons, hl]
          · show note.dislikes = _
            simp [reactionTypeCountAt, List.countP_cons, hd]
        · simp [reactionCountAt, List.countP_cons]
      | dislike =>
        simp only [reactToNoteHandler] at h
        have hs' := (Except.ok.inj h).symm
        subst hs'
        refine ⟨?_, ?_⟩
        · intro n hn
          rw [alistLookup_update_self _ heq] at hn
          injection hn with hn
          subst hn
          constructor
          · show note.likes = _
            simp [reactionTypeCountAt, List.countP_cons, hl]
          · show u64SatAdd note.dislikes 1 = _
            rw [u64SatAdd_one_of_lt (by omega)]
            simp [reactionTypeCountAt, List.countP_cons, hd]
        · simp [reactionCountAt, List.countP_cons]

/-- A successful `change_reaction` preserves the tally invariant and the
number of reaction records attached to the note.  The strict bound on the
record count guarantees the saturating increments in the apply step are
exact. -/
theorem changeReaction_ok_tally {addr : NoteAddr} {r : Pubkey} {t : ReactionType}
    {s s' : Chain} (h : changeReaction addr r t s = Except.ok s')
    (hinv : TallyInvAt addr s) (hcnt : reactionCountAt addr s < u64Max) :
    TallyInvAt addr s' ∧ reactionCountAt addr s' = reactionCountAt addr s := by
  have hlike := reactionTypeCountAt_le addr ReactionType.like s
  have hdis := reactionTypeCountAt_le addr ReactionType.dislike s
  simp only [changeReaction] at h
  split at h
  · exact Except.noConfusion h
  next note heq =>
    split_ifs at h with hs
    split at h
    · exact Except.noConfusion h
    next rec heqr =>
      split_ifs at h with hrr
      obtain ⟨hl, hd⟩ := hinv note heq
      simp only [reactionTypeCountAt] at hl hd hlike hdis
      simp only [reactionCountAt] at hlike hdis hcnt
      obtain ⟨rr, rn, rt, rb⟩ := rec
      cases rt with
      | like =>
        simp only [changeReactionHandler, changeReactionApplyNew] at h
        split_ifs at h with h0
        cases t with
        | like =>
          have hs' := (Except.ok.inj h).symm
          subst hs'
          have hupdL := alistUpdate_countP (⟨rr, rn, ReactionType.like, rb⟩ : Reaction)
            (fun kv => decide (kv.1.1 = addr) && decide (kv.2.reaction_type = ReactionType.like)) heqr
          have hupdD := alistUpdate_countP (⟨rr, rn, ReactionType.like, rb⟩ : Reaction)
            (fun kv => decide (kv.1.1 = addr) && decide (kv.2.reaction_type = ReactionType.dislike)) heqr
          have hupdC := alistUpdate_countP (⟨rr, rn, ReactionType.like, rb⟩ : Reaction)
            (fun kv => decide (kv.1.1 = addr)) heqr
          simp at hupdL hupdD hupdC
          refine ⟨?_, ?_⟩
          · intro n hn
            rw [alistLookup_update_self _ heq] at hn
            injection hn with hn
            subst hn
            refine ⟨?_, ?_⟩
            · show u64SatAdd (u64SatSub note.likes 1) 1 = _
              simp only [reactionTypeCountAt, u64SatAdd, u64SatSub, u64Max_lit] at hcnt ⊢
              omega
            · show note.dislikes = _
              simp only [reactionTypeCountAt]
              omega
          · show _ = _
            simp only [reactionCountAt]
            omega
        | dislike =>
          have hs' := (Except.ok.inj h).symm
          subst hs'
          have hupdL := alistUpdate_countP (⟨rr, rn, ReactionType.dislike, rb⟩ : Reaction)
            (fun kv => decide (kv.1.1 = addr) && decide (kv.2.reaction_type = ReactionType.like)) heqr
          have hupdD := alistUpdate_countP (⟨rr, rn, ReactionType.dislike, rb⟩ : Reaction)
            (fun kv => decide (kv.1.1 = addr) && decide (kv.2.reaction_type = ReactionType.dislike)) heqr
          have hupdC := alistUpdate_countP (⟨rr, rn, ReactionType.dislike, rb⟩ : Reaction)
            (fun kv => decide (kv.1.1 = addr)) heqr
          simp at hupdL hupdD hupdC
          refine ⟨?_, ?_⟩
          · intro n hn
            rw [alistLookup_update_self _ heq] at hn
            injection hn with hn
            subst hn
            refine ⟨?_, ?_⟩
            · show u64SatSub note.likes 1 = _
              simp only [reactionTypeCountAt, u64SatSub]
              omega
            · show u64SatAdd (note.dislikes) 1 = _
              simp only [reactionTypeCountAt, u64SatAdd, u64SatSub, u64Max_lit] at hcnt ⊢
              omega
          · show _ = _
            simp only [reactionCountAt]
            omega
        | none =>
          have hs' := (Except.ok.inj h).symm
          subst hs'
          have hupdL := alistUpdate_countP (⟨rr, rn, ReactionType.none, rb⟩ : Reaction)
            (fun kv => decide (kv.1.1 = addr) && decide (kv.2.reaction_type = ReactionType.like)) heqr
          have hupdD := alistUpdate_countP (⟨rr, rn, ReactionType.none, rb⟩ : Reaction)
            (fun kv => decide (kv.1.1 = addr) && decide (kv.2.reaction_type = ReactionType.dislike)) heqr
          have hupdC := alistUpdate_countP (⟨rr, rn, ReactionType.none, rb⟩ : Reaction)
            (fun kv => decide (kv.1.1 = addr)) heqr
          simp at hupdL hupdD hupdC
          refine ⟨?_, ?_⟩
          · intro n hn
            rw [alistLookup_update_self _ heq] at hn
            injection hn with hn
            subst hn
            refine ⟨?_, ?_⟩
            · show u64SatSub note.likes 1 = _
              simp only [reactionTypeCountAt, u64SatSub]
              omega
            · show note.dislikes = _
              simp only [reactionTypeCountAt, u64SatSub]
              omega
          · show _ = _
            simp only [reactionCountAt]
            omega
      | dislike =>
        simp only [changeReactionHandler, changeReactionApplyNew] at h
        split_ifs at h with h0
        cases t with
        | like =>
          have hs' := (Except.ok.inj h).symm
          subst hs'
          have hupdL := alistUpdate_countP (⟨rr, rn, ReactionType.like, rb⟩ : Reaction)
            (fun kv => decide (kv.1.1 = addr) && decide (kv.2.reaction_type = ReactionType.like)) heqr
          have hupdD := alistUpdate_countP (⟨rr, rn, ReactionType.like, rb⟩ : Reaction)
            (fun kv => decide (kv.1.1 = addr) && decide (kv.2.reaction_type = ReactionType.dislike)) heqr
          have hupdC := alistUpdate_countP (⟨rr, rn, ReactionType.like, rb⟩ : Reaction)
            (fun kv => decide (kv.1.1 = addr)) heqr
          simp at hupdL hupdD hupdC
          refine ⟨?_, ?_⟩
          · intro n hn
            rw [alistLookup_update_self _ heq] at hn
            injection hn with hn
            subst hn
            refine ⟨?_, ?_⟩
            · show u64SatAdd (note.likes) 1 = _
              simp only [reactionTypeCountAt, u64SatAdd, u64SatSub, u64Max_lit] at hcnt ⊢
              omega
            · show u64SatSub note.dislikes 1 = _
              simp only [reactionTypeCountAt, u64SatSub]
              omega
          · show _ = _
            simp only [reactionCountAt]
            omega
        | dislike =>
          have hs' := (Except.ok.inj h).symm
          subst hs'
          have hupdL := alistUpdate_countP (⟨rr, rn, ReactionType.dislike, rb⟩ : Reaction)
            (fun kv => decide (kv.1.1 = addr) && decide (kv.2.reaction_type = ReactionType.like)) heqr
          have hupdD := alistUpdate_countP (⟨rr, rn, ReactionType.dislike, rb⟩ : Reaction)
            (fun kv => decide (kv.1.1 = addr) && decide (kv.2.reaction_type = ReactionType.dislike)) heqr
          have hupdC := alistUpdate_countP (⟨rr, rn, ReactionType.dislike, rb⟩ : Reaction)
            (fun kv => decide (kv.1.1 = addr)) heqr
          simp at hupdL hupdD hupdC
          refine ⟨?_, ?_⟩
          · intro n hn
            rw [alistLookup_update_self _ heq] at hn
            injection hn with hn
            subst hn
            refine ⟨?_, ?_⟩
            · show note.likes = _
              simp only [reactionTypeCountAt, u64SatSub]
              omega
            · show u64SatAdd (u64SatSub note.dislikes 1) 1 = _
              simp only [reactionTypeCountAt, u64SatAdd, u64SatSub, u64Max_lit] at hcnt ⊢
              omega
          · show _ = _
            simp only [reactionCountAt]
            omega
        | none =>
          have hs' := (Except.ok.inj h).symm
          subst hs'
          have hupdL := alistUpdate_countP (⟨rr, rn, ReactionType.none, rb⟩ : Reaction)
            (fun kv => decide (kv.1.1 = addr) && decide (kv.2.reaction_type = ReactionType.like)) heqr
          have hupdD := alistUpdate_countP (⟨rr, rn, ReactionType.none, rb⟩ : Reaction)
            (fun kv => decide (kv.1.1 = addr) && decide (kv.2.reaction_type = ReactionType.dislike)) heqr
          have hupdC := alistUpdate_countP (⟨rr, rn, ReactionType.none, rb⟩ : Reaction)
            (fun kv => decide (kv.1.1 = addr)) heqr
          simp at hupdL hupdD hupdC
          refine ⟨?_, ?_⟩
          · intro n hn
            rw [alistLookup_update_self _ heq] at hn
            injection hn with hn
            subst hn
            refine ⟨?_, ?_⟩
            · show note.likes = _
              simp only [reactionTypeCountAt, u64SatSub]
              omega
            · show u64SatSub note.dislikes 1 = _
              simp only [reactionTypeCountAt, u64SatSub]
              omega
          · show _ = _
            simp only [reactionCountAt]
            omega
      | none =>
        simp only [changeReactionHandler, changeReactionApplyNew] at h
        cases t with
        | like =>
          have hs' := (Except.ok.inj h).symm
          subst hs'
          have hupdL := alistUpdate_countP (⟨rr, rn, ReactionType.like, rb⟩ : Reaction)
            (fun kv => decide (kv.1.1 = addr) && decide (kv.2.reaction_type = ReactionType.like)) heqr
          have hupdD := alistUpdate_countP (⟨rr, rn, ReactionType.like, rb⟩ : Reaction)
            (fun kv => decide (kv.1.1 = addr) && decide (kv.2.reaction_type = ReactionType.dislike)) heqr
          have hupdC := alistUpdate_countP (⟨rr, rn, ReactionType.like, rb⟩ : Reaction)
            (fun kv => decide (kv.1.1 = addr)) heqr
          simp at hupdL hupdD hupdC
          refine ⟨?_, ?_⟩
          · intro n hn
            rw [alistLookup_update_self _ heq] at hn
            injection hn with hn
            subst hn
            refine ⟨?_, ?_⟩
            · show u64SatAdd (note.likes) 1 = _
              simp only [reactionTypeCountAt, u64SatAdd, u64SatSub, u64Max_lit] at hcnt ⊢
              omega
            · show note.dislikes = _
              simp only [reactionTypeCountAt, u64SatSub]
              omega
          · show _ = _
            simp only [reactionCountAt]
            omega
        | dislike =>
          have hs' := (Except.ok.inj h).symm
          subst hs'
          have hupdL := alistUpdate_countP (⟨rr, rn, ReactionType.dislike, rb⟩ : Reaction)
            (fun kv => decide (kv.1.1 = addr) && decide (kv.2.reaction_type = ReactionType.like)) heqr
          have hupdD := alistUpdate_countP (⟨rr, rn, ReactionType.dislike, rb⟩ : Reaction)
            (fun kv => decide (kv.1.1 = addr) && decide (kv.2.reaction_type = ReactionType.dislike)) heqr
          have hupdC := alistUpdate_countP (⟨rr, rn, ReactionType.dislike, rb⟩ : Reaction)
            (fun kv => decide (kv.1.1 = addr)) heqr
          simp at hupdL hupdD hupdC
          refine ⟨?_, ?_⟩
          · intro n hn
            rw [alistLookup_update_self _ heq] at hn
            injection hn with hn
            subst hn
            refine ⟨?_, ?_⟩
            · show note.likes = _
              simp only [reactionTypeCountAt, u64SatSub]
              omega
            · show u64SatAdd (note.dislikes) 1 = _
              simp only [reactionTypeCountAt, u64SatAdd, u64SatSub, u64Max_lit] at hcnt ⊢
              omega
          · show _ = _
            simp only [reactionCountAt]
            omega
        | none =>
          have hs' := (Except.ok.inj h).symm
          subst hs'
          have hupdL := alistUpdate_countP (⟨rr, rn, ReactionType.none, rb⟩ : Reaction)
            (fun kv => decide (kv.1.1 = addr) && decide (kv.2.reaction_type = ReactionType.like)) heqr
          have hupdD := alistUpdate_countP (⟨rr, rn, ReactionType.none, rb⟩ : Reaction)
            (fun kv => decide (kv.1.1 = addr) && decide (kv.2.reaction_type = ReactionType.dislike)) heqr
          have hupdC := alistUpdate_countP (⟨rr, rn, ReactionType.none, rb⟩ : Reaction)
            (fun kv => decide (kv.1.1 = addr)) heqr
          simp at hupdL hupdD hupdC
          refine ⟨?_, ?_⟩
          · intro n hn
            rw [alistLookup_update_self _ heq] at hn
            injection hn with hn
            subst hn
            refine ⟨?_, ?_⟩
            · show note.likes = _
              simp only [reactionTypeCountAt, u64SatSub]
              omega
            · show note.dislikes = _
              simp only [reactionTypeCountAt, u64SatSub]
              omega
          · show _ = _
            simp only [reactionCountAt]
            omega

/-- A successful `remove_reaction` preserves the tally invariant and the
number of reaction records attached to the note. -/
theorem removeReaction_ok_tally {addr : NoteAddr} {r : Pubkey}
    {s s' : Chain} (h : removeReaction addr r s = Except.ok s')
    (hinv : TallyInvAt addr s) :
    TallyInvAt addr s' ∧ reactionCountAt addr s' = reactionCountAt addr s := by
  have hlike := reactionTypeCountAt_le addr ReactionType.like s
  have hdis := reactionTypeCountAt_le addr ReactionType.dislike s
  simp only [removeReaction] at h
  split at h
  · exact Except.noConfusion h
  next note heq =>
    split_ifs at h with hs
    split at h
    · exact Except.noConfusion h
    next rec heqr =>
      split_ifs at h with hrr
      obtain ⟨hl, hd⟩ := hinv note heq
      simp only [reactionTypeCountAt] at hl hd hlike hdis
      obtain ⟨rr, rn, rt, rb⟩ := rec
      cases rt with
      | like =>
        simp only [removeReactionHandler] at h
        split_ifs at h with h0
        have hs' := (Except.ok.inj h).symm
        subst hs'
        have hupdL := alistUpdate_countP (⟨rr, rn, ReactionType.none, rb⟩ : Reaction)
          (fun kv => decide (kv.1.1 = addr) && decide (kv.2.reaction_type = ReactionType.like)) heqr
        have hupdD := alistUpdate_countP (⟨rr, rn, ReactionType.none, rb⟩ : Reaction)
          (fun kv => decide (kv.1.1 = addr) && decide (kv.2.reaction_type = ReactionType.dislike)) heqr
        have hupdC := alistUpdate_countP (⟨rr, rn, ReactionType.none, rb⟩ : Reaction)
          (fun kv => decide (kv.1.1 = addr)) heqr
        simp at hupdL hupdD hupdC
        refine ⟨?_, ?_⟩
        · intro n hn
          rw [alistLookup_update_self _ heq] at hn
          injection hn with hn
          subst hn
          refine ⟨?_, ?_⟩
          · show u64SatSub note.likes 1 = _
            simp only [reactionTypeCountAt, u64SatSub]
            omega
          · show note.dislikes = _
            simp only [reactionTypeCountAt, u64SatSub]
            omega
        · show _ = _
          simp only [reactionCountAt]
          omega
      | dislike =>
        simp only [removeReactionHandler] at h
        split_ifs at h with h0
        have hs' := (Except.ok.inj h).symm
        subst hs'
        have hupdL := alistUpdate_countP (⟨rr, rn, ReactionType.none, rb⟩ : Reaction)
          (fun kv => decide (kv.1.1 = addr) && decide (kv.2.reaction_type = ReactionType.like)) heqr
        have hupdD := alistUpdate_countP (⟨rr, rn, ReactionType.none, rb⟩ : Reaction)
          (fun kv => decide (kv.1.1 = addr) && decide (kv.2.reaction_type = ReactionType.dislike)) heqr
        have hupdC := alistUpdate_countP (⟨rr, rn, ReactionType.none, rb⟩ : Reaction)
          (fun kv => decide (kv.1.1 = addr)) heqr
        simp at hupdL hupdD hupdC
        refine ⟨?_, ?_⟩
        · intro n hn
          rw [alistLookup_update_self _ heq] at hn
          injection hn with hn
          subst hn
          refine ⟨?_, ?_⟩
          · show note.likes = _
            simp only [reactionTypeCountAt, u64SatSub]
            omega
          · show u64SatSub note.dislikes 1 = _
            simp only [reactionTypeCountAt, u64SatSub]
            omega
        · show _ = _
          simp only [reactionCountAt]
          omega
      | none =>
        simp only [removeReactionHandler] at h
        exact Except.noConfusion h

/-- Is this instruction one of the three reaction operations targeting the
note at `addr`? -/
def isReactionOpOn (addr : NoteAddr) : Op → Prop
  | Op.react a _ _ => a = addr
  | Op.change a _ _ => a = addr
  | Op.remove a _ => a = addr
  | _ => False

/-- The tally invariant is preserved by every sequence of reaction
operations short enough to keep the note's record count within `u64`. -/
theorem tally_invariant_run (addr : NoteAddr) :
    ∀ (ops : List Op) (s : Chain),
      (∀ op ∈ ops, isReactionOpOn addr op) →
      TallyInvAt addr s →
      reactionCountAt addr s + ops.length ≤ u64Max →
      TallyInvAt addr (runOps ops s) := by
  intro ops
  induction ops with
  | nil => exact fun s _ hinv _ => hinv
  | cons op rest ih =>
    intro s hops hinv hcnt
    have hops' : ∀ o ∈ rest, isReactionOpOn addr o :=
      fun o ho => hops o (List.mem_cons_of_mem _ ho)
    have hop := hops op (List.mem_cons_self _ _)
    show TallyInvAt addr (runOps rest (applyOp op s))
    simp only [List.length_cons] at hcnt
    cases hr : runOp op s with
    | error e =>
      have hid : applyOp op s = s := by unfold applyOp; rw [hr]
      rw [hid]
      exact ih s hops' hinv (by omega)
    | ok s' =>
      have hid : applyOp op s = s' := by unfold applyOp; rw [hr]
      rw [hid]
      cases op with
      | send now a r t c => exact absurd hop (by simp [isReactionOpOn])
      | edit now a₂ a₃ t c => exact absurd hop (by simp [isReactionOpOn])
      | delete a₂ d => exact absurd hop (by simp [isReactionOpOn])
      | react a₂ r t =>
        have ha : a₂ = addr := hop
        subst ha
        obtain ⟨hinv', hcnt'⟩ := reactToNote_ok_tally hr hinv (by omega)
        exact ih s' hops' hinv' (by omega)
      | change a₂ r t =>
        have ha : a₂ = addr := hop
        subst ha
        obtain ⟨hinv', hcnt'⟩ := changeReaction_ok_tally hr hinv (by omega)
        exact ih s' hops' hinv' (by omega)
      | remove a₂ r =>
        have ha : a₂ = addr := hop
        subst ha
        obtain ⟨hinv', hcnt'⟩ := removeReaction_ok_tally hr hinv
        exact ih s' hops' hinv' (by omega)

/-- Claim C9 (amended): starting from a note with both tallies 0 and no
attached reaction records, after any sequence of at most `2^64 - 1`
react/change/remove operations on that note (by any reactors), the stored
`likes` equals the number of its reaction records typed Like and `dislikes`
the number typed Dislike; and a failed operation leaves the whole state —
reaction records and tallies included — unchanged.  (The bound on the
sequence length is forced by tally saturation; see the counterexample.) -/
theorem tellit_c9_tally_invariant (addr : NoteAddr) (s₀ : Chain) (ops : List Op)
    (note₀ noteF : Note)
    (hops : ∀ op ∈ ops, isReactionOpOn addr op)
    (h₀ : alistLookup s₀.notes addr = Option.some note₀)
    (hl₀ : note₀.likes = 0) (hd₀ : note₀.dislikes = 0)
    (hr₀ : reactionCountAt addr s₀ = 0)
    (hlen : ops.length ≤ u64Max)
    (hF : alistLookup (runOps ops s₀).notes addr = Option.some noteF) :
    noteF.likes = reactionTypeCountAt addr ReactionType.like (runOps ops s₀)
      ∧ noteF.dislikes
          = reactionTypeCountAt addr ReactionType.dislike (runOps ops s₀)
      ∧ (∀ (op : Op) (st : Chain) (e : ProgError),
          runOp op st = Except.error e → applyOp op st = st) := by
  have hinv₀ : TallyInvAt addr s₀ := by
    intro n hn
    rw [h₀] at hn
    injection hn with hn
    subst hn
    have h1 := reactionTypeCountAt_le addr ReactionType.like s₀
    have h2 := reactionTypeCountAt_le addr ReactionType.dislike s₀
    exact ⟨by omega, by omega⟩
  have hres := tally_invariant_run addr ops s₀ hops hinv₀ (by omega) noteF hF
  exact ⟨hres.1, hres.2, fun op st e he => by unfold applyOp; rw [he]⟩

/-- Two reactions by reactor `3` on the demo note: a Like, then a change
to Dislike. -/
def demoOps : List Op :=
  [Op.react (deriveNoteAddr 1 2 "hi" "yo") 3 ReactionType.like,
   Op.change (deriveNoteAddr 1 2 "hi" "yo") 3 ReactionType.dislike]

/-- Witness for C9 at a concrete input. -/
theorem tellit_c9_tally_invariant_witness :
    (⟨1, 2, "hi", "yo", 0, 1, 5, 5, 0⟩ : Note).likes
        = reactionTypeCountAt (deriveNoteAddr 1 2 "hi" "yo") ReactionType.like
            (runOps demoOps cDemo1)
      ∧ (⟨1, 2, "hi", "yo", 0, 1, 5, 5, 0⟩ : Note).dislikes
        = reactionTypeCountAt (deriveNoteAddr 1 2 "hi" "yo") ReactionType.dislike
            (runOps demoOps cDemo1) := by
  have h := tellit_c9_tally_invariant (deriveNoteAddr 1 2 "hi" "yo") cDemo1
    demoOps ⟨1, 2, "hi", "yo", 0, 0, 5, 5, 0⟩ ⟨1, 2, "hi", "yo", 0, 1, 5, 5, 0⟩
    (by
      intro op hop
      simp only [demoOps, List.mem_cons, List.not_mem_nil, or_false] at hop
      rcases hop with rfl | rfl <;> rfl)
    rfl rfl rfl rfl (by decide) rfl
  exact ⟨h.1, h.2.1⟩

/-- The demo note's PDA, target of the long counterexample run. -/
def cexAddr : NoteAddr := deriveNoteAddr 1 2 "hi" "yo"

/-- The Like record reactor `i` holds after the counterexample run. -/
def cexRec (i : Pubkey) : Reaction := ⟨i, cexAddr, ReactionType.like, 0⟩

/-- The reaction records after the first `n` reactors (`0 .. n-1`) liked. -/
def cexRecs : Nat → List (ReactionAddr × Reaction)
  | 0 => []
  | Nat.succ n => ((cexAddr, n), cexRec n) :: cexRecs n

/-- The ledger after the first `n` reactors liked the demo note. -/
def cexChain (n : Nat) : Chain :=
  ⟨⟨0, 0, 1⟩, [(cexAddr, ⟨1, 2, "hi", "yo", min n u64Max, 0, 5, 5, 0⟩)], cexRecs n⟩

theorem cexRecs_lookup {n k : Nat} (h : n ≤ k) :
    alistLookup (cexRecs n) (cexAddr, k) = Option.none := by
  induction n with
  | zero => rfl
  | succ m ih =>
    simp only [cexRecs, alistLookup]
    have hne : ((cexAddr, m) : ReactionAddr) ≠ (cexAddr, k) := by
      intro hc
      injection hc with h1 h2
      exact absurd h2 (Nat.ne_of_lt (Nat.lt_of_succ_le h))
    rw [if_neg hne]
    exact ih (by omega)

theorem cexRecs_likeCount (n : Nat) :
    (cexRecs n).countP
        (fun kv => decide (kv.1.1 = cexAddr)
          && decide (kv.2.reaction_type = ReactionType.like)) = n := by
  induction n with
  | zero => rfl
  | succ m ih => simp [cexRecs, List.countP_cons, cexRec, ih]

theorem u64SatAdd_min (n : Nat) :
    u64SatAdd (min n u64Max) 1 = min (n + 1) u64Max := by
  simp only [u64SatAdd, u64Max_lit]
  omega

/-- The `n`-th like in the counterexample run takes `cexChain n` to
`cexChain (n + 1)`. -/
theorem cexStep (n : Nat) :
    applyOp (Op.react cexAddr n ReactionType.like) (cexChain n)
      = cexChain (n + 1) := by
  have hrun : runOp (Op.react cexAddr n ReactionType.like) (cexChain n)
      = Except.ok (cexChain (n + 1)) := by
    simp only [runOp, reactToNote, cexChain, alistLookup, if_pos,
      reactToNoteHandler, alistUpdate]
    rw [if_neg (by simp [noteSeedsOk, deriveNoteAddr, cexAddr])]
    rw [cexRecs_lookup (le_refl n)]
    simp only [cexRecs, cexRec, u64SatAdd_min, zeroReaction]
  unfold applyOp
  rw [hrun]

theorem runOps_append (xs ys : List Op) (s : Chain) :
    runOps (xs ++ ys) s = runOps ys (runOps xs s) :=
  List.foldl_append _ _ _ _

/-- The counterexample run, characterized for every prefix length. -/
theorem cexRun (n : Nat) :
    runOps ((List.range n).map fun i => Op.react cexAddr i ReactionType.like)
      cDemo1 = cexChain n := by
  induction n with
  | zero => decide
  | succ m ih =>
    rw [List.range_succ, List.map_append, runOps_append, ih]
    exact cexStep m

/-- `2^64` distinct reactors all like the demo note. -/
def cexOps : List Op :=
  (List.range (2 ^ 64)).map fun i => Op.react cexAddr i ReactionType.like

/-- Counterexample to C9 as stated: after `2^64` distinct reactors like
the note, its stored tally has saturated at `2^64 - 1` while the number of
Like reaction records is `2^64` — the tally no longer equals the count, so
the invariant fails for unboundedly long operation sequences. -/
theorem tellit_c9_counterexample :
    alistLookup (runOps cexOps cDemo1).notes cexAddr
        = Option.some ⟨1, 2, "hi", "yo", u64Max, 0, 5, 5, 0⟩
      ∧ reactionTypeCountAt cexAddr ReactionType.like (runOps cexOps cDemo1)
          = 2 ^ 64
      ∧ u64Max ≠ 2 ^ 64 := by
  have h := cexRun (2 ^ 64)
  rw [show cexOps
      = (List.range (2 ^ 64)).map fun i => Op.react cexAddr i ReactionType.like
    from rfl, h]
  refine ⟨?_, ?_, by norm_num [u64Max]⟩
  · show alistLookup (cexChain (2 ^ 64)).notes cexAddr = _
    simp only [cexChain, alistLookup, if_pos]
    norm_num [u64Max_lit]
  · show reactionTypeCountAt cexAddr ReactionType.like (cexChain (2 ^ 64)) = _
    simp only [reactionTypeCountAt, cexChain]
    exact cexRecs_likeCount (2 ^ 64)

set_option maxRecDepth 4000 in
/-- Witness for C5 at concrete inputs: all three guard failures. -/
theorem tellit_c5_send_note_guards_witness :
    sendNote 0 1 1 "t" "c" (initChain 0)
        = Except.error (ProgError.tellit TellitError.CannotSendToSelf)
      ∧ sendNote 0 1 2 longTitle "c" (initChain 0)
        = Except.error (ProgError.tellit TellitError.TitleTooLong)
      ∧ sendNote 0 1 2 "t" longContent (initChain 0)
        = Except.error (ProgError.tellit TellitError.ContentTooLong) := by
  refine ⟨((tellit_c5_send_note_guards 0 1 1 "t" "c" 0 zeroNote ⟨0, 0, 0⟩
      (initChain 0)).1 rfl).2 rfl, ?_, ?_⟩
  · exact ((tellit_c5_send_note_guards 0 1 2 longTitle "c" 0 zeroNote ⟨0, 0, 0⟩
      (initChain 0)).2.1 (by decide) (by decide)).2 rfl
  · exact ((tellit_c5_send_note_guards 0 1 2 "t" longContent 0 zeroNote ⟨0, 0, 0⟩
      (initChain 0)).2.2 (by decide) (by decide) (by decide)).2 rfl

end Tellit
